import Mathlib

/-!
Shallow embedding of `examples/strands-agent/agent.py` from the mermkit
repository, together with a spec-level model of the external
`MermkitClient` (the mermkit package itself is not among the given
sources; only this example script calls it).

The script constructs a module-level client, starts it, registers its
`close` with `atexit`, and exposes one tool function:

  def render_mermaid(diagram: str, format: str = "svg") -> dict:
      result = _client.render(diagram, format=format, engine="stub")
      return \x7b"mime": result.mime, "bytes": result.bytes,
              "warnings": result.warnings\x7d
-/

/-- Error kinds of the render adapter, from spec section 7:
`InvalidArgument` (bad input shape or format), `BackendUnavailable`
(client not started), `RenderError` (backend-reported rendering
failure). -/
inductive MermkitError where
  | invalidArgument
  | backendUnavailable
  | renderError
deriving DecidableEq

/-- The response record of the backend client's `render` call (spec
section 6): a MIME type string, the raw output bytes, and a list of
warnings. -/
structure ClientResponse where
  mime : String
  bytes : List Nat
  warnings : List String
deriving DecidableEq

/-- A request as forwarded to the backend client:
`_client.render(diagram, format=format, engine="stub")`
(agent.py line 14). -/
structure RenderRequest where
  source : String
  fmt : String
  engine : String
deriving DecidableEq

/-- An arbitrary backend client: maps a request to an error or a
response.  The error type `E` is a parameter because the adapter never
inspects errors coming out of the client. -/
abbrev Client (E : Type) : Type := RenderRequest → Except E ClientResponse

/-- Values occurring in the Python dict returned by `render_mermaid`:
a string (the `mime` entry), raw bytes (the `bytes` entry), or a list
of strings (the `warnings` entry). -/
inductive DictVal where
  | str (s : String)
  | bytes (b : List Nat)
  | strs (l : List String)
deriving DecidableEq

/-- agent.py line 15: the dict literal built from the client response,
as an association list in the order the keys are written. -/
def toolResultOf (r : ClientResponse) : List (String × DictVal) :=
  [("mime", DictVal.str r.mime), ("bytes", DictVal.bytes r.bytes),
   ("warnings", DictVal.strs r.warnings)]

/-- agent.py lines 11-15: `render_mermaid(diagram, format)` calls the
client on the request `(diagram, format, "stub")` and, on success,
returns the three-entry dict; a client error propagates unchanged
(the Python body has no try/except). -/
def render_mermaid {E : Type} (c : Client E) (diagram fmt : String) :
    Except E (List (String × DictVal)) :=
  (c ⟨diagram, fmt, "stub"⟩).map toolResultOf

/-- agent.py line 12: the one-argument call form of `render_mermaid`,
supplying the declared default `format="svg"`. -/
def render_mermaid' {E : Type} (c : Client E) (diagram : String) :
    Except E (List (String × DictVal)) :=
  render_mermaid c diagram "svg"

/-- The supported formats and their MIME types (spec sections 3 and 8):
`svg` maps to `image/svg+xml`, `png` maps to `image/png`, anything else
is unsupported. -/
def mimeFor (f : String) : Option String :=
  if f = "svg" then some "image/svg+xml"
  else if f = "png" then some "image/png"
  else none

/-- An abstract rendering engine: given source, format and engine
selector, it either reports a rendering failure or produces raw output
bytes together with warnings.  The engine itself is an explicit
non-goal of the spec, so it is a parameter of the client model. -/
abbrev EngineFn : Type :=
  String → String → String → Except Unit (List Nat × List String)

/-- Modelled from the spec: `MermkitClient.render` (the mermkit package
is missing from the given sources; only agent.py calls it).  Spec
sections 6-8: the call fails with `BackendUnavailable` when the
connection is not established, with `InvalidArgument` for an empty
source or an unsupported format, with `RenderError` when the backend
reports a rendering failure; otherwise it returns the MIME type
matching the format together with the engine's bytes and warnings. -/
def clientRender (eng : EngineFn) (started : Bool) (req : RenderRequest) :
    Except MermkitError ClientResponse :=
  if started = false then Except.error MermkitError.backendUnavailable
  else if req.source = "" then Except.error MermkitError.invalidArgument
  else
    match mimeFor req.fmt with
    | none => Except.error MermkitError.invalidArgument
    | some m =>
        match eng req.source req.fmt req.engine with
        | Except.error _ => Except.error MermkitError.renderError
        | Except.ok (bs, ws) => Except.ok ⟨m, bs, ws⟩

/-- The module-level client after `_client.start()` has run
(agent.py lines 6-7): the connection is established. -/
def startedClient (eng : EngineFn) : Client MermkitError :=
  clientRender eng true

/-- The same client while its connection is not established
(`start()` not yet called, spec section 7). -/
def unstartedClient (eng : EngineFn) : Client MermkitError :=
  clientRender eng false

/-- A concrete engine for witnesses: always succeeds with one output
byte and no warnings. -/
def engOk : EngineFn := fun _ _ _ => Except.ok ([1], [])

/-- A concrete engine for witnesses: always reports a rendering
failure. -/
def engFail : EngineFn := fun _ _ _ => Except.error ()

/-- C2: for every format argument, calling `render_mermaid` with an
empty diagram source against the (connected) spec-modelled client fails
with `InvalidArgument`. -/
theorem C2_empty_source_invalid_argument (eng : EngineFn) (f : String) :
    render_mermaid (startedClient eng) "" f =
      Except.error MermkitError.invalidArgument := by
  simp [render_mermaid, startedClient, clientRender, Except.map]

/-- C4: for every input, calling `render_mermaid` while the client's
connection is not established fails with `BackendUnavailable`. -/
theorem C4_unstarted_backend_unavailable (eng : EngineFn) (d f : String) :
    render_mermaid (unstartedClient eng) d f =
      Except.error MermkitError.backendUnavailable := by
  simp [render_mermaid, unstartedClient, clientRender, Except.map]

/-- C8: a call to `render_mermaid` without a format argument issues the
backend request with format `svg`, the declared default. -/
theorem C8_default_format_svg {E : Type} (c : Client E) (d : String) :
    render_mermaid' c d = (c ⟨d, "svg", "stub"⟩).map toolResultOf := rfl

/-- A deterministic backend behaviour: any request relates to at most
one outcome. -/
def Deterministic {E : Type} (B : RenderRequest → Except E ClientResponse → Prop) : Prop :=
  ∀ req r₁ r₂, B req r₁ → B req r₂ → r₁ = r₂

/-- Relational form of agent.py lines 14-15 against a possibly
nondeterministic backend behaviour `B`: one call on the request
`(d, f, "stub")` yields some backend outcome, and the call's outcome is
that outcome with the three-entry dict built on success. -/
def RendersTo {E : Type} (B : RenderRequest → Except E ClientResponse → Prop)
    (d f : String) (out : Except E (List (String × DictVal))) : Prop :=
  ∃ r, B ⟨d, f, "stub"⟩ r ∧ out = r.map toolResultOf

/-- The functional adapter is an instance of the relational one: a call
of `render_mermaid` on client `c` is a `RendersTo` outcome for the
behaviour that returns exactly what `c` returns. -/
theorem render_mermaid_rendersTo {E : Type} (c : Client E) (d f : String) :
    RendersTo (fun req r => r = c req) d f (render_mermaid c d f) :=
  ⟨c ⟨d, f, "stub"⟩, rfl, rfl⟩

/-- C1: for every non-empty diagram source and format among svg/png, a
successful `render_mermaid` call against the spec-modelled connected
client (whose engine only ever produces non-empty output bytes) returns
a dict whose mime entry is the MIME type corresponding to the format
and whose bytes entry is non-empty. -/
theorem C1_success_mime_and_nonempty_bytes (eng : EngineFn) (d f : String)
    (res : List (String × DictVal))
    (hne : ∀ s g e bs ws, eng s g e = Except.ok (bs, ws) → bs ≠ [])
    (hd : d ≠ "") (hf : f = "svg" ∨ f = "png")
    (hok : render_mermaid (startedClient eng) d f = Except.ok res) :
    ∃ bs ws, bs ≠ [] ∧
      res = [("mime", DictVal.str (if f = "svg" then "image/svg+xml" else "image/png")),
             ("bytes", DictVal.bytes bs), ("warnings", DictVal.strs ws)] := by
  rcases hf with hf | hf <;> subst hf
  · rcases heng : eng d "svg" "stub" with e | ⟨bs, ws⟩
    · exfalso
      simp [render_mermaid, startedClient, clientRender, mimeFor, hd, heng, Except.map] at hok
    · refine ⟨bs, ws, hne d "svg" "stub" bs ws heng, ?_⟩
      simp [render_mermaid, startedClient, clientRender, mimeFor, hd, heng,
            Except.map, toolResultOf] at hok
      simp [← hok]
  · rcases heng : eng d "png" "stub" with e | ⟨bs, ws⟩
    · exfalso
      simp [render_mermaid, startedClient, clientRender, mimeFor, hd, heng, Except.map] at hok
    · refine ⟨bs, ws, hne d "png" "stub" bs ws heng, ?_⟩
      simp [render_mermaid, startedClient, clientRender, mimeFor, hd, heng,
            Except.map, toolResultOf] at hok
      simp [← hok]

/-- Witness for C1 at the spec's scenario input. -/
theorem C1_witness :
    ∃ bs ws, bs ≠ [] ∧
      ([("mime", DictVal.str "image/svg+xml"), ("bytes", DictVal.bytes [1]),
        ("warnings", DictVal.strs [])] : List (String × DictVal)) =
      [("mime", DictVal.str (if "svg" = "svg" then "image/svg+xml" else "image/png")),
       ("bytes", DictVal.bytes bs), ("warnings", DictVal.strs ws)] :=
  C1_success_mime_and_nonempty_bytes engOk "graph TD; A-->B" "svg"
    [("mime", DictVal.str "image/svg+xml"), ("bytes", DictVal.bytes [1]),
     ("warnings", DictVal.strs [])]
    (by intro s g e bs ws h; simp [engOk] at h; obtain ⟨h1, h2⟩ := h; simp [← h1])
    (by decide) (Or.inl rfl) rfl

/-- C3: for every diagram source, calling `render_mermaid` with a
format outside the supported pair svg/png against the (connected)
spec-modelled client fails with `InvalidArgument`. -/
theorem C3_unsupported_format_invalid_argument (eng : EngineFn) (d f : String)
    (h1 : f ≠ "svg") (h2 : f ≠ "png") :
    render_mermaid (startedClient eng) d f =
      Except.error MermkitError.invalidArgument := by
  by_cases hd : d = ""
  · subst hd
    simp [render_mermaid, startedClient, clientRender, Except.map]
  · simp [render_mermaid, startedClient, clientRender, mimeFor, hd, h1, h2, Except.map]

/-- Witness for C3 at format pdf. -/
theorem C3_witness :
    render_mermaid (startedClient engOk) "graph TD; A-->B" "pdf" =
      Except.error MermkitError.invalidArgument :=
  C3_unsupported_format_invalid_argument engOk "graph TD; A-->B" "pdf"
    (by decide) (by decide)

/-- C5: when the backend call succeeds, the result of `render_mermaid`
is exactly the three-entry dict whose mime, bytes and warnings entries
are copied unmodified from the client response, and nothing else. -/
theorem C5_exactly_three_copied_fields {E : Type} (c : Client E) (d f : String)
    (resp : ClientResponse) (h : c ⟨d, f, "stub"⟩ = Except.ok resp) :
    render_mermaid c d f =
      Except.ok [("mime", DictVal.str resp.mime), ("bytes", DictVal.bytes resp.bytes),
                 ("warnings", DictVal.strs resp.warnings)] := by
  simp [render_mermaid, h, Except.map, toolResultOf]

/-- Witness for C5 at the spec's png scenario input. -/
theorem C5_witness :
    render_mermaid (startedClient engOk) "graph TD; A-->B" "png" =
      Except.ok [("mime", DictVal.str "image/png"), ("bytes", DictVal.bytes [1]),
                 ("warnings", DictVal.strs [])] :=
  C5_exactly_three_copied_fields (startedClient engOk) "graph TD; A-->B" "png"
    ⟨"image/png", [1], []⟩ rfl

/-- C6: the engine selector is the fixed constant stub for every call:
the adapter's outcome never depends on the client's behaviour at any
request whose engine selector differs from stub, whatever the diagram
and format arguments are. -/
theorem C6_engine_selector_fixed_stub {E : Type} (c₁ c₂ : Client E) (d f : String)
    (h : ∀ req : RenderRequest, req.engine = "stub" → c₁ req = c₂ req) :
    render_mermaid c₁ d f = render_mermaid c₂ d f := by
  unfold render_mermaid
  rw [h ⟨d, f, "stub"⟩ rfl]

/-- A client for the C6 witness that only answers requests whose engine
selector is stub. -/
def clientStubOnly : Client MermkitError := fun req =>
  if req.engine = "stub" then Except.ok ⟨"image/svg+xml", [1], []⟩
  else Except.error MermkitError.renderError

/-- A client for the C6 witness that answers every request the same
way. -/
def clientAlways : Client MermkitError := fun _ =>
  Except.ok ⟨"image/svg+xml", [1], []⟩

/-- Witness for C6: two clients that agree only on stub requests give
the same adapter outcome. -/
theorem C6_witness :
    render_mermaid clientStubOnly "graph TD; A-->B" "svg" =
      render_mermaid clientAlways "graph TD; A-->B" "svg" :=
  C6_engine_selector_fixed_stub clientStubOnly clientAlways "graph TD; A-->B" "svg"
    (by intro req hr; simp [clientStubOnly, clientAlways, hr])

/-- C7: against a deterministic backend, two calls with identical
diagram source and format arguments yield identical outcomes, in
particular identical mime and bytes entries. -/
theorem C7_identical_calls_identical_results {E : Type}
    (B : RenderRequest → Except E ClientResponse → Prop) (d f : String)
    (o₁ o₂ : Except E (List (String × DictVal)))
    (hdet : Deterministic B) (h₁ : RendersTo B d f o₁) (h₂ : RendersTo B d f o₂) :
    o₁ = o₂ := by
  obtain ⟨r₁, hb₁, ho₁⟩ := h₁
  obtain ⟨r₂, hb₂, ho₂⟩ := h₂
  rw [ho₁, ho₂, hdet _ r₁ r₂ hb₁ hb₂]

/-- Witness for C7: one call is `render_mermaid` itself, the other is
the literal dict outcome; determinism makes them equal. -/
theorem C7_witness :
    render_mermaid (startedClient engOk) "graph TD; A-->B" "svg" =
      Except.ok [("mime", DictVal.str "image/svg+xml"), ("bytes", DictVal.bytes [1]),
                 ("warnings", DictVal.strs [])] :=
  C7_identical_calls_identical_results
    (fun req r => r = startedClient engOk req) "graph TD; A-->B" "svg"
    (render_mermaid (startedClient engOk) "graph TD; A-->B" "svg")
    (Except.ok [("mime", DictVal.str "image/svg+xml"), ("bytes", DictVal.bytes [1]),
                ("warnings", DictVal.strs [])])
    (by intro req r₁ r₂ h₁ h₂; rw [h₁, h₂])
    (render_mermaid_rendersTo (startedClient engOk) "graph TD; A-->B" "svg")
    ⟨startedClient engOk ⟨"graph TD; A-->B", "svg", "stub"⟩, rfl, rfl⟩

/-- C10: a backend error of any error type propagates to the caller
unchanged: the adapter body has no handler, so it cannot catch, wrap or
translate it. -/
theorem C10_backend_error_propagates_unchanged {E : Type} (c : Client E)
    (d f : String) (e : E) (h : c ⟨d, f, "stub"⟩ = Except.error e) :
    render_mermaid c d f = Except.error e := by
  simp [render_mermaid, h, Except.map]

/-- Witness for C10: a backend-reported rendering failure comes back
verbatim. -/
theorem C10_witness :
    render_mermaid (startedClient engFail) "graph TD; A-->B" "svg" =
      Except.error MermkitError.renderError :=
  C10_backend_error_propagates_unchanged (startedClient engFail)
    "graph TD; A-->B" "svg" MermkitError.renderError rfl
